import Mathlib

/-!
# Verification of the AstralGalaxyMusic playback transport controller

Shallow embedding of `src/stores/player.ts`.  The repository ships two
iterations of the player store in that file (a first iteration and a later
one); definitions below carry the suffixes `_v1` (first iteration,
lines 1-332) and `_v2` (second iteration, lines 333-691).

Numbers are modelled with `ℚ` (the discrete state machine: times, volumes,
progress) and with `ℝ` (the volume-fade curve, which uses `Math.sin`).
Asynchronous functions are split at their suspension points (`await`): each
segment between two suspension points becomes one Lean function from state
to state, taking the captured session token as a parameter.  Backend
commands issued through `invoke(...)` are recorded in an append-only log.
-/

namespace AstralGalaxy

/-- `PlayMode` from `player.ts`: `'sequence' | 'loop' | 'shuffle'`. -/
inductive PlayMode
  | sequence
  | loop
  | shuffle
deriving DecidableEq

/-- The `Track` interface from `player.ts`. -/
structure Track where
  id : String
  title : String
  artist : String
  album : String
  cover : String
  duration : ℚ
  path : String
  isAvailable : Bool
deriving DecidableEq

/-- A backend command issued through `invoke`, or a user-facing
notification issued through `notifyUI`. -/
inductive Cmd
  | setVolume (vol : ℚ)
  | loadTrack (path : String)
  | play
  | pause
  | seek (time : ℚ)
  | setOutputDevice (device : String)
  | notify (msg : String) (isError : Bool)
deriving DecidableEq

/-- The shared observable state of the player store (the refs of
`usePlayerStore`), plus an append-only log of issued backend commands.
`clockRunning` models whether the requestAnimationFrame progress loop is
scheduled (`rafId !== null`).  UI-only fields not touched by any claim
(`showPlaylist`, `likedTracks`, `hasStarted`, device list, lyrics) are
omitted; `isFading` lives in the separate fade-system model below. -/
structure PState where
  isPlaying : Bool
  isPaused : Bool
  isBuffering : Bool
  isSeeking : Bool
  isDragging : Bool
  volume : ℚ
  progress : ℚ
  currentTime : ℚ
  playMode : PlayMode
  queue : List Track
  currentIndex : ℕ
  playSessionId : ℕ
  clockRunning : Bool
  hasAudioInitialized : Bool
  activeDevice : String
  log : List Cmd
deriving DecidableEq

/-- `currentTrack` computed ref: `queue.value[currentIndex.value] || null`
(v1) resp. the explicit bounds check (v2); both are out-of-bounds-safe
indexing. -/
def currentTrack (s : PState) : Option Track :=
  s.queue.get? s.currentIndex

/-- Append one issued backend command to the log. -/
def emit (s : PState) (c : Cmd) : PState :=
  { s with log := s.log ++ [c] }

/-- Erase the command log (used to state that an operation changed
nothing except possibly issuing commands). -/
def stripLog (s : PState) : PState :=
  { s with log := [] }

/-- `if (duration > 0.1) currentTrack.value.duration = duration;` —
correct the current track's stored duration from the backend answer. -/
def updateDuration (s : PState) (d : ℚ) : PState :=
  match s.queue.get? s.currentIndex with
  | none => s
  | some t =>
      if d > (1 : ℚ) / 10 then
        { s with queue := s.queue.set s.currentIndex { t with duration := d } }
      else s

/-! ## loadAndPlay, first iteration (lines 120-164)

Segments: synchronous prologue; after `audioDelay()` (guarded by the
session check on line 139, then the mute `player_set_volume 0`); after the
mute resolves (line 144 chains `player_load_track` with **no** session
check between the two awaits); after the load resolves (guarded check on
line 145, duration correction, clear buffering, start the clock; the
fade-in `applyFade(0, volume, 0.45)` then runs in the fade system); the
`catch` handler (lines 156-163, guarded). -/

/-- Synchronous prologue of `loadAndPlay` (v1): bump the session, stop the
clock, set the optimistic UI flags, reset time, capture the token. Returns
the captured token together with the new state; early-returns when there
is no current track. -/
def lapBegin_v1 (s : PState) : ℕ × PState :=
  match currentTrack s with
  | none => (s.playSessionId, s)
  | some _ =>
      let s1 := { s with
        playSessionId := s.playSessionId + 1,
        clockRunning := false,
        isPlaying := true,
        isPaused := false,
        isBuffering := true,
        isSeeking := false,
        currentTime := 0,
        progress := 0 }
      (s1.playSessionId, s1)

/-- Continuation of `loadAndPlay` (v1) after `audioDelay()`: session check,
then mute the backend (`player_set_volume 0`). -/
def lapAfterDelay_v1 (tok : ℕ) (s : PState) : PState :=
  if tok ≠ s.playSessionId then s else emit s (Cmd.setVolume 0)

/-- Continuation of `loadAndPlay` (v1) after the mute resolves: the source
chains `player_load_track(currentTrack.value.path)` immediately, with no
session check at this suspension point. -/
def lapAfterMute_v1 (_tok : ℕ) (s : PState) : PState :=
  match currentTrack s with
  | none => s
  | some t => emit s (Cmd.loadTrack t.path)

/-- Continuation of `loadAndPlay` (v1) after the load resolves with
duration `d`: session check, duration correction, clear buffering, start
the progress loop. -/
def lapAfterLoad_v1 (tok : ℕ) (d : ℚ) (s : PState) : PState :=
  if tok ≠ s.playSessionId then s
  else
    let s1 := updateDuration s d
    { s1 with isBuffering := false, clockRunning := true }

/-- `catch` handler of `loadAndPlay` (v1): under a current session, revert
`isPlaying`, clear buffering, restore the backend volume to the configured
level and surface an error notification; under a stale session do
nothing. -/
def lapFail_v1 (tok : ℕ) (s : PState) : PState :=
  if tok ≠ s.playSessionId then s
  else
    emit (emit { s with isPlaying := false, isBuffering := false }
      (Cmd.setVolume (s.volume / 100))) (Cmd.notify "PLAY FAILED" true)

/-! ## loadAndPlay, second iteration (lines 531-566) -/

/-- Synchronous prologue of `loadAndPlay` (v2). -/
def lapBegin_v2 (s : PState) : ℕ × PState :=
  match currentTrack s with
  | none => (s.playSessionId, s)
  | some _ =>
      let s1 := { s with
        playSessionId := s.playSessionId + 1,
        isPlaying := true,
        isPaused := false,
        isBuffering := true,
        currentTime := 0,
        progress := 0,
        clockRunning := false }
      (s1.playSessionId, s1)

/-- Cold-start branch inside the v2 timeout callback: when audio has not
been initialized, force a device wakeup (no session check). -/
def lapColdStart_v2 (s : PState) : PState :=
  if s.hasAudioInitialized then s
  else { emit s (Cmd.setOutputDevice s.activeDevice) with hasAudioInitialized := true }

/-- v2 issues `player_load_track(currentTrack.value!.path)` (no session
check before the call). -/
def lapIssueLoad_v2 (s : PState) : PState :=
  match currentTrack s with
  | none => s
  | some t => emit s (Cmd.loadTrack t.path)

/-- `executePlayLogic` (v2), success path: for a new track set the backend
volume to the configured level (otherwise `player_play`), flip state to
playing, start the clock, and re-assert the volume after a 100ms timeout. -/
def executePlayLogic_v2 (isNewTrack : Bool) (s : PState) : PState :=
  let s1 := if isNewTrack then emit s (Cmd.setVolume (s.volume / 100)) else emit s Cmd.play
  let s2 := { s1 with isPlaying := true, isPaused := false, clockRunning := true }
  emit s2 (Cmd.setVolume (s2.volume / 100))

/-- Continuation of `loadAndPlay` (v2) after the load resolves: session
check, duration correction, clear buffering, then `executePlayLogic(true)`. -/
def lapAfterLoad_v2 (tok : ℕ) (d : ℚ) (s : PState) : PState :=
  if tok ≠ s.playSessionId then s
  else
    let s1 := updateDuration s d
    executePlayLogic_v2 true { s1 with isBuffering := false }

/-- `catch` handler of `loadAndPlay` (v2): under a current session, revert
`isPlaying`, clear buffering and notify.  Unlike v1 it issues no
volume-restore command (v2 never muted). -/
def lapFail_v2 (tok : ℕ) (s : PState) : PState :=
  if tok ≠ s.playSessionId then s
  else emit { s with isPlaying := false, isBuffering := false } (Cmd.notify "PLAY FAILED" true)

/-! ## seekTo (v1: lines 205-243, v2: lines 620-633)

`seekTo` is modelled as one run: the synchronous part, the issued backend
seek, and the resolution (success or failure).  v1 compares its captured
token against the ambient session at resolution time; `sessAtRes` is that
ambient value (bumps performed by concurrently running load intents). -/

/-- `seekTo` (v1): early return without a positive-duration track; record
`wasPlaying`; stop the clock; raise the seeking and buffering locks; set
progress/time optimistically; issue `player_seek`; on resolution under a
current session clear the locks and either resume the clock (if it was
running) or re-issue `player_pause`; the `catch` clears the locks under a
current session. -/
def seekToRun_v1 (percent : ℚ) (success : Bool) (sessAtRes : ℕ) (s : PState) : PState :=
  match currentTrack s with
  | none => s
  | some t =>
      if t.duration ≤ 0 then s
      else
        let wasPlaying := s.isPlaying && !s.isPaused
        let tok := s.playSessionId
        let target := percent / 100 * t.duration
        let s1 := { s with
          clockRunning := false,
          isSeeking := true,
          isBuffering := true,
          progress := percent,
          currentTime := target }
        let s2 := emit s1 (Cmd.seek target)
        if success then
          if sessAtRes = tok then
            let s3 := { s2 with isSeeking := false, isBuffering := false }
            if wasPlaying then { s3 with clockRunning := true }
            else emit s3 Cmd.pause
          else s2
        else
          if sessAtRes = tok then { s2 with isSeeking := false, isBuffering := false }
          else s2

/-- `seekTo` (v2): no session involvement, no buffering lock, and no pause
re-assertion; on success clear `isSeeking` and resume the clock only if it
had been running; the `catch` clears `isSeeking`. -/
def seekToRun_v2 (percent : ℚ) (success : Bool) (s : PState) : PState :=
  match currentTrack s with
  | none => s
  | some t =>
      if t.duration ≤ 0 then s
      else
        let wasPlaying := s.isPlaying && !s.isPaused
        let target := percent / 100 * t.duration
        let s1 := { s with
          clockRunning := false,
          isSeeking := true,
          progress := percent,
          currentTime := target }
        let s2 := emit s1 (Cmd.seek target)
        if success then
          let s3 := { s2 with isSeeking := false }
          if wasPlaying then { s3 with clockRunning := true } else s3
        else { s2 with isSeeking := false }

/-! ## Next / previous track (v1: lines 199-200, v2: lines 568-589)

The v2 shuffle branch computes
`chaos = Math.abs(Math.sin(seed) * 100000)` from a wall-clock seed and
uses its fractional part as the random draw:
`targetIndex = Math.floor((chaos - Math.floor(chaos)) * total)`.
The floating-point trigonometric mixing is an entropy source; it is
modelled by the abstract draw `r = chaos - Math.floor(chaos) ∈ [0,1)`. -/

/-- v2 shuffle selection for `total > 1`: floor the draw scaled to the
queue size, and on collision with the current index fall back to the
deterministic offset `(targetIndex + 1) % total`. -/
def shuffleSelect (r : ℚ) (total cur : ℕ) : ℕ :=
  let target := ⌊r * (total : ℚ)⌋₊
  if target = cur then (target + 1) % total else target

/-- Index update of `nextTrack` (v2): shuffle branch only when
`playMode === 'shuffle'` and `total > 1`; otherwise `(cur + 1) % total`. -/
def nextIndex_v2 (mode : PlayMode) (r : ℚ) (total cur : ℕ) : ℕ :=
  match mode with
  | PlayMode.shuffle => if total > 1 then shuffleSelect r total cur else cur
  | _ => (cur + 1) % total

/-- Index update of `nextTrack` (v1): always `(cur + 1) % total`,
regardless of the play mode. -/
def nextIndex_v1 (total cur : ℕ) : ℕ := (cur + 1) % total

/-- Index update of `prevTrack` (both iterations): step back by one with
wraparound, regardless of the play mode. -/
def prevIndex (total cur : ℕ) : ℕ := if cur > 0 then cur - 1 else total - 1

/-- `nextTrack` (v2) up to the point where it calls `loadAndPlay`:
early return on an empty queue, then the index reassignment. -/
def nextTrackIndexStep_v2 (r : ℚ) (s : PState) : PState :=
  if s.queue.length = 0 then s
  else { s with currentIndex := nextIndex_v2 s.playMode r s.queue.length s.currentIndex }

/-- `nextTrack` (v1) up to the point where it calls `loadAndPlay`. -/
def nextTrackIndexStep_v1 (s : PState) : PState :=
  if s.queue.length = 0 then s
  else { s with currentIndex := nextIndex_v1 s.queue.length s.currentIndex }

/-- `prevTrack` (both iterations) up to the point where it calls
`loadAndPlay`. -/
def prevTrackIndexStep (s : PState) : PState :=
  if s.queue.length = 0 then s
  else { s with currentIndex := prevIndex s.queue.length s.currentIndex }

/-! ## Progress clock (v1: lines 249-283, v2: lines 656-675)

Both iterations use the same requestAnimationFrame loop body.  One tick is
a function of the frame timestamp and the previous frame time. -/

/-- Result of one progress-loop tick: the new state, whether the loop
rescheduled itself, and whether it invoked `nextTrack`. -/
structure TickResult where
  state : PState
  rescheduled : Bool
  calledNextTrack : Bool
deriving DecidableEq

/-- One tick of the progress loop.  Exits when not playing, paused, or no
current track; otherwise adds the wall-clock delta to the displayed time
unless an interactive lock (`isDragging`/`isBuffering`/`isSeeking`) is
held; at end-of-track, loop mode resets the time to 0 and issues a
backend seek-to-zero, any other mode invokes `nextTrack` and exits. -/
def progressTick (timestamp lastFrameTime : ℚ) (s : PState) : TickResult :=
  match currentTrack s with
  | none => ⟨s, false, false⟩
  | some t =>
      if !s.isPlaying || s.isPaused then ⟨s, false, false⟩
      else
        let delta := (timestamp - lastFrameTime) / 1000
        if !s.isDragging && !s.isBuffering && !s.isSeeking then
          let s1 := { s with currentTime := s.currentTime + delta }
          if s1.currentTime ≥ t.duration then
            if s.playMode = PlayMode.loop then
              let s2 := emit { s1 with currentTime := 0 } (Cmd.seek 0)
              let s3 :=
                if t.duration > 0 then { s2 with progress := s2.currentTime / t.duration * 100 }
                else s2
              ⟨s3, true, false⟩
            else ⟨s1, false, true⟩
          else
            let s2 :=
              if t.duration > 0 then { s1 with progress := s1.currentTime / t.duration * 100 }
              else s1
            ⟨s2, true, false⟩
        else ⟨s, true, false⟩

/-! ## Volume envelope (`applyFade`, v1 lines 59-83)

`applyFade(startVol, endVol, durationSeconds)` sets `isFading`, captures a
start timestamp, and schedules a tick through requestAnimationFrame; each
tick computes `p = min(elapsed / (durationSeconds*1000), 1)`, issues
`player_set_volume(start + (end-start) * sin(p*pi/2))` with the levels
normalized by 100, and reschedules itself while `p < 1`.  There is no
abort mechanism: no cancellation flag and no stored handle for the
pending tick.  The scheduler is modelled as a FIFO of pending envelope
ticks; each issued volume command is logged as the pair (envelope id,
tick timestamp), which together with the envelope parameters determines
the issued level via `fadeTickLevel` below. -/

/-- One fade envelope: start/end volume (0..100 scale as passed to
`applyFade`), duration in milliseconds (`durationSeconds * 1000`), and the
`performance.now()` captured at the start. -/
structure FadeEnv where
  envId : ℕ
  startVol : ℚ
  endVol : ℚ
  durationMs : ℚ
  startTime : ℚ
deriving DecidableEq

/-- The fade scheduler state: the `isFading` flag, the FIFO of pending
scheduled ticks, and the log of issued volume commands, each recorded as
(envelope id, tick timestamp). -/
structure FadeSys where
  isFading : Bool
  pending : List FadeEnv
  volLog : List (ℕ × ℚ)
deriving DecidableEq

/-- Starting `applyFade`: set `isFading` and schedule the envelope's first
tick.  Faithful to the source, nothing is cancelled or aborted. -/
def applyFadeStart (e : FadeEnv) (sys : FadeSys) : FadeSys :=
  { sys with isFading := true, pending := sys.pending ++ [e] }

/-- The clamped phase `p = Math.min((now - startTime) / durationMs, 1.0)`
of an envelope at a tick (rational model, used by the scheduler; the
division-by-zero edge of a zero duration is treated separately in the
JS-number model below). -/
def fadeTickP (e : FadeEnv) (now : ℚ) : ℚ :=
  min ((now - e.startTime) / e.durationMs) 1

/-- Run the next scheduled fade tick at time `now`: issue the envelope's
volume command, then reschedule it while `p < 1`, otherwise clear
`isFading` (the promise resolves). -/
def runFadeTick (now : ℚ) (sys : FadeSys) : FadeSys :=
  match sys.pending with
  | [] => sys
  | e :: rest =>
      let p := fadeTickP e now
      let sys1 := { sys with pending := rest, volLog := sys.volLog ++ [(e.envId, now)] }
      if p < 1 then { sys1 with pending := sys1.pending ++ [e] }
      else { sys1 with isFading := false }

/-! Real-valued fade curve (for the curve-shape claims).  These
definitions use `Real.sin` and real division, which have no executable
code; the witnesses for the corresponding theorems instantiate them at
concrete rational points through the theorems themselves. -/

noncomputable section RealFade

/-- The clamped phase over ℝ:
`p = min(elapsedMs / (durationSeconds * 1000), 1)`. -/
def fadeP (elapsedMs durationSeconds : ℝ) : ℝ :=
  min (elapsedMs / (durationSeconds * 1000)) 1

/-- One issued fade level over ℝ: `start + (end - start) * sin(p * pi/2)`
where `start`/`end` are the normalized (0..1) levels. -/
def fadeCurrent (startLevel endLevel p : ℝ) : ℝ :=
  startLevel + (endLevel - startLevel) * Real.sin (p * (Real.pi / 2))

/-- The level issued by a scheduler tick, connecting the discrete fade
model with the real-valued curve: normalization by 100 as in the source
(`start = startVol / 100.0`). -/
def fadeTickLevel (e : FadeEnv) (now : ℚ) : ℝ :=
  fadeCurrent ((e.startVol : ℝ) / 100) ((e.endVol : ℝ) / 100) ((fadeTickP e now : ℚ) : ℝ)

/-! ## IEEE-style number model for the zero-duration fade

JavaScript division never throws: `x / 0` is `Infinity` for `x > 0`,
`-Infinity` for `x < 0` and `NaN` for `x = 0`; `Math.min(Infinity, 1) = 1`,
`Math.min(NaN, 1) = NaN`; `Math.sin` of an infinity or NaN is NaN, and NaN
propagates through arithmetic.  `p < 1.0` is false when `p` is NaN. -/

/-- A JavaScript number: a finite real, a signed infinity, or NaN. -/
inductive JsNum
  | num (x : ℝ)
  | posInf
  | negInf
  | nan

/-- JavaScript division of finite reals. -/
def jsDiv (a b : ℝ) : JsNum :=
  if b = 0 then (if a = 0 then JsNum.nan else if 0 < a then JsNum.posInf else JsNum.negInf)
  else JsNum.num (a / b)

/-- `Math.min(x, 1.0)`. -/
def jsMin1 : JsNum → JsNum
  | JsNum.num x => JsNum.num (min x 1)
  | JsNum.posInf => JsNum.num 1
  | JsNum.negInf => JsNum.negInf
  | JsNum.nan => JsNum.nan

/-- `Math.sin(p * Math.PI / 2)`: NaN on NaN or infinite input. -/
def jsEase : JsNum → JsNum
  | JsNum.num x => JsNum.num (Real.sin (x * (Real.pi / 2)))
  | _ => JsNum.nan

/-- `start + (end - start) * ease` with NaN propagation (`start`, `end`
are the normalized finite levels; the ease is never infinite). -/
def jsLevel (startLevel endLevel : ℝ) : JsNum → JsNum
  | JsNum.num x => JsNum.num (startLevel + (endLevel - startLevel) * x)
  | _ => JsNum.nan

/-- The volume level computed by one `applyFade` tick under JavaScript
number semantics, as a function of the normalized levels, the elapsed
milliseconds and the duration in milliseconds. -/
def tickLevelJs (startLevel endLevel elapsedMs durMs : ℝ) : JsNum :=
  jsLevel startLevel endLevel (jsEase (jsMin1 (jsDiv elapsedMs durMs)))

/-- The reschedule condition `p < 1.0` of a tick, as a proposition on the
JavaScript value of `p`: false for NaN (so a NaN phase resolves the
fade immediately), false for `p = 1`. -/
def jsLtOne : JsNum → Prop
  | JsNum.num x => x < 1
  | JsNum.posInf => False
  | JsNum.negInf => True
  | JsNum.nan => False

end RealFade

/-! ## Operation algebra over the store state

Every modelled store-state step, for stating global session-token
invariants over arbitrary interleavings. -/

/-- One modelled step over `PState`: the segments of both `loadAndPlay`
iterations, full `seekTo` runs, the `nextTrack`/`prevTrack` index steps,
and one progress-loop tick. -/
inductive Op
  | lapBeginV1
  | lapAfterDelayV1 (tok : ℕ)
  | lapAfterMuteV1 (tok : ℕ)
  | lapAfterLoadV1 (tok : ℕ) (d : ℚ)
  | lapFailV1 (tok : ℕ)
  | lapBeginV2
  | lapColdStartV2
  | lapIssueLoadV2
  | lapAfterLoadV2 (tok : ℕ) (d : ℚ)
  | lapFailV2 (tok : ℕ)
  | seekV1 (percent : ℚ) (success : Bool) (sessAtRes : ℕ)
  | seekV2 (percent : ℚ) (success : Bool)
  | nextIdxV1
  | nextIdxV2 (r : ℚ)
  | prevIdx
  | tick (timestamp lastFrameTime : ℚ)

/-- Apply one modelled step to the store state. -/
def applyOp : Op → PState → PState
  | Op.lapBeginV1, s => (lapBegin_v1 s).2
  | Op.lapAfterDelayV1 tok, s => lapAfterDelay_v1 tok s
  | Op.lapAfterMuteV1 tok, s => lapAfterMute_v1 tok s
  | Op.lapAfterLoadV1 tok d, s => lapAfterLoad_v1 tok d s
  | Op.lapFailV1 tok, s => lapFail_v1 tok s
  | Op.lapBeginV2, s => (lapBegin_v2 s).2
  | Op.lapColdStartV2, s => lapColdStart_v2 s
  | Op.lapIssueLoadV2, s => lapIssueLoad_v2 s
  | Op.lapAfterLoadV2 tok d, s => lapAfterLoad_v2 tok d s
  | Op.lapFailV2 tok, s => lapFail_v2 tok s
  | Op.seekV1 percent success sessAtRes, s => seekToRun_v1 percent success sessAtRes s
  | Op.seekV2 percent success, s => seekToRun_v2 percent success s
  | Op.nextIdxV1, s => nextTrackIndexStep_v1 s
  | Op.nextIdxV2 r, s => nextTrackIndexStep_v2 r s
  | Op.prevIdx, s => prevTrackIndexStep s
  | Op.tick timestamp lastFrameTime, s => (progressTick timestamp lastFrameTime s).state

/-- Run a sequence of modelled steps. -/
def runOps (ops : List Op) (s : PState) : PState :=
  ops.foldl (fun st op => applyOp op st) s

/-! ## Concrete example data (for counterexamples and witnesses) -/

/-- A concrete 100-second track. -/
def trackA : Track :=
  ⟨"idA", "Title A", "Artist A", "Album A", "coverA", 100, "/music/a.mp3", true⟩

/-- A concrete 200-second track. -/
def trackB : Track :=
  ⟨"idB", "Title B", "Artist B", "Album B", "coverB", 200, "/music/b.mp3", true⟩

/-- A concrete third track. -/
def trackC : Track :=
  ⟨"idC", "Title C", "Artist C", "Album C", "coverC", 150, "/music/c.mp3", true⟩

/-- An idle store state with one 100-second track loaded as current, not
playing (so a seek from here is a seek-while-paused). -/
def exampleState : PState where
  isPlaying := false
  isPaused := false
  isBuffering := false
  isSeeking := false
  isDragging := false
  volume := 80
  progress := 0
  currentTime := 0
  playMode := PlayMode.sequence
  queue := [trackA]
  currentIndex := 0
  playSessionId := 0
  clockRunning := false
  hasAudioInitialized := true
  activeDevice := "Default"
  log := []

/-- A three-track store state in shuffle mode with the last track
current. -/
def exampleShuffleState : PState :=
  { exampleState with
      playMode := PlayMode.shuffle,
      queue := [trackA, trackB, trackC],
      currentIndex := 2 }

/-- A playing store state in loop mode, one second before the end of the
current 100-second track. -/
def exampleLoopState : PState :=
  { exampleState with
      isPlaying := true,
      playMode := PlayMode.loop,
      currentTime := 99,
      clockRunning := true }

/-- A playing store state in sequential mode, one second before the end
of the current 100-second track. -/
def exampleSeqPlayingState : PState :=
  { exampleState with
      isPlaying := true,
      currentTime := 99,
      clockRunning := true }

/-! ## Helper lemmas -/

/-- Frame of a full `seekTo` run (v1): the queue, current index, play
mode, configured volume, session token, play/pause intent, drag flag and
device are untouched on every path (early return, success or failure,
current or stale session). -/
theorem seekToRun_v1_frame (percent : ℚ) (success : Bool) (sessAtRes : ℕ) (s : PState) :
    (seekToRun_v1 percent success sessAtRes s).queue = s.queue ∧
    (seekToRun_v1 percent success sessAtRes s).currentIndex = s.currentIndex ∧
    (seekToRun_v1 percent success sessAtRes s).playMode = s.playMode ∧
    (seekToRun_v1 percent success sessAtRes s).volume = s.volume ∧
    (seekToRun_v1 percent success sessAtRes s).playSessionId = s.playSessionId ∧
    (seekToRun_v1 percent success sessAtRes s).isPlaying = s.isPlaying ∧
    (seekToRun_v1 percent success sessAtRes s).isPaused = s.isPaused ∧
    (seekToRun_v1 percent success sessAtRes s).isDragging = s.isDragging ∧
    (seekToRun_v1 percent success sessAtRes s).hasAudioInitialized = s.hasAudioInitialized ∧
    (seekToRun_v1 percent success sessAtRes s).activeDevice = s.activeDevice := by
  unfold seekToRun_v1
  rcases h : currentTrack s with _ | t
  · simp
  · simp only [h]
    split_ifs <;> simp [emit]

/-- Frame of a full `seekTo` run (v2), as for v1. -/
theorem seekToRun_v2_frame (percent : ℚ) (success : Bool) (s : PState) :
    (seekToRun_v2 percent success s).queue = s.queue ∧
    (seekToRun_v2 percent success s).currentIndex = s.currentIndex ∧
    (seekToRun_v2 percent success s).playMode = s.playMode ∧
    (seekToRun_v2 percent success s).volume = s.volume ∧
    (seekToRun_v2 percent success s).playSessionId = s.playSessionId ∧
    (seekToRun_v2 percent success s).isPlaying = s.isPlaying ∧
    (seekToRun_v2 percent success s).isPaused = s.isPaused ∧
    (seekToRun_v2 percent success s).isDragging = s.isDragging ∧
    (seekToRun_v2 percent success s).hasAudioInitialized = s.hasAudioInitialized ∧
    (seekToRun_v2 percent success s).activeDevice = s.activeDevice := by
  unfold seekToRun_v2
  rcases h : currentTrack s with _ | t
  · simp
  · simp only [h]
    split_ifs <;> simp [emit]

theorem updateDuration_session (s : PState) (d : ℚ) :
    (updateDuration s d).playSessionId = s.playSessionId := by
  unfold updateDuration
  rcases h : s.queue.get? s.currentIndex with _ | t
  · simp
  · simp only [h]
    split_ifs <;> simp

theorem lapBegin_v1_session_le (s : PState) :
    s.playSessionId ≤ (lapBegin_v1 s).2.playSessionId := by
  unfold lapBegin_v1
  rcases h : currentTrack s with _ | t <;> simp [h]

theorem lapBegin_v2_session_le (s : PState) :
    s.playSessionId ≤ (lapBegin_v2 s).2.playSessionId := by
  unfold lapBegin_v2
  rcases h : currentTrack s with _ | t <;> simp [h]

theorem lapAfterDelay_v1_session (tok : ℕ) (s : PState) :
    (lapAfterDelay_v1 tok s).playSessionId = s.playSessionId := by
  unfold lapAfterDelay_v1
  split_ifs <;> simp [emit]

theorem lapAfterMute_v1_session (tok : ℕ) (s : PState) :
    (lapAfterMute_v1 tok s).playSessionId = s.playSessionId := by
  unfold lapAfterMute_v1
  rcases h : currentTrack s with _ | t <;> simp [h, emit]

theorem lapAfterLoad_v1_session (tok : ℕ) (d : ℚ) (s : PState) :
    (lapAfterLoad_v1 tok d s).playSessionId = s.playSessionId := by
  unfold lapAfterLoad_v1
  split_ifs <;> simp [updateDuration_session]

theorem lapFail_v1_session (tok : ℕ) (s : PState) :
    (lapFail_v1 tok s).playSessionId = s.playSessionId := by
  unfold lapFail_v1
  split_ifs <;> simp [emit]

theorem lapColdStart_v2_session (s : PState) :
    (lapColdStart_v2 s).playSessionId = s.playSessionId := by
  unfold lapColdStart_v2
  split_ifs <;> simp [emit]

theorem lapIssueLoad_v2_session (s : PState) :
    (lapIssueLoad_v2 s).playSessionId = s.playSessionId := by
  unfold lapIssueLoad_v2
  rcases h : currentTrack s with _ | t <;> simp [h, emit]

theorem executePlayLogic_v2_session (isNewTrack : Bool) (s : PState) :
    (executePlayLogic_v2 isNewTrack s).playSessionId = s.playSessionId := by
  unfold executePlayLogic_v2
  split_ifs <;> simp [emit]

theorem lapAfterLoad_v2_session (tok : ℕ) (d : ℚ) (s : PState) :
    (lapAfterLoad_v2 tok d s).playSessionId = s.playSessionId := by
  unfold lapAfterLoad_v2
  split_ifs <;> simp [executePlayLogic_v2_session, updateDuration_session]

theorem lapFail_v2_session (tok : ℕ) (s : PState) :
    (lapFail_v2 tok s).playSessionId = s.playSessionId := by
  unfold lapFail_v2
  split_ifs <;> simp [emit]

theorem nextTrackIndexStep_v1_session (s : PState) :
    (nextTrackIndexStep_v1 s).playSessionId = s.playSessionId := by
  unfold nextTrackIndexStep_v1
  split_ifs <;> simp

theorem nextTrackIndexStep_v2_session (r : ℚ) (s : PState) :
    (nextTrackIndexStep_v2 r s).playSessionId = s.playSessionId := by
  unfold nextTrackIndexStep_v2
  split_ifs <;> simp

theorem prevTrackIndexStep_session (s : PState) :
    (prevTrackIndexStep s).playSessionId = s.playSessionId := by
  unfold prevTrackIndexStep
  split_ifs <;> simp

theorem progressTick_session (ts lf : ℚ) (s : PState) :
    (progressTick ts lf s).state.playSessionId = s.playSessionId := by
  unfold progressTick
  rcases h : currentTrack s with _ | t
  · simp
  · simp only [h]
    split_ifs <;> simp [emit]

/-- No modelled step ever decreases the session token. -/
theorem applyOp_session_mono (op : Op) (s : PState) :
    s.playSessionId ≤ (applyOp op s).playSessionId := by
  cases op with
  | lapBeginV1 => exact lapBegin_v1_session_le s
  | lapAfterDelayV1 tok => exact le_of_eq (lapAfterDelay_v1_session tok s).symm
  | lapAfterMuteV1 tok => exact le_of_eq (lapAfterMute_v1_session tok s).symm
  | lapAfterLoadV1 tok d => exact le_of_eq (lapAfterLoad_v1_session tok d s).symm
  | lapFailV1 tok => exact le_of_eq (lapFail_v1_session tok s).symm
  | lapBeginV2 => exact lapBegin_v2_session_le s
  | lapColdStartV2 => exact le_of_eq (lapColdStart_v2_session s).symm
  | lapIssueLoadV2 => exact le_of_eq (lapIssueLoad_v2_session s).symm
  | lapAfterLoadV2 tok d => exact le_of_eq (lapAfterLoad_v2_session tok d s).symm
  | lapFailV2 tok => exact le_of_eq (lapFail_v2_session tok s).symm
  | seekV1 percent success sessAtRes =>
      exact le_of_eq (seekToRun_v1_frame percent success sessAtRes s).2.2.2.2.1.symm
  | seekV2 percent success =>
      exact le_of_eq (seekToRun_v2_frame percent success s).2.2.2.2.1.symm
  | nextIdxV1 => exact le_of_eq (nextTrackIndexStep_v1_session s).symm
  | nextIdxV2 r => exact le_of_eq (nextTrackIndexStep_v2_session r s).symm
  | prevIdx => exact le_of_eq (prevTrackIndexStep_session s).symm
  | tick ts lf => exact le_of_eq (progressTick_session ts lf s).symm

/-- The session token is nondecreasing along any sequence of modelled
steps. -/
theorem runOps_session_mono (ops : List Op) (s : PState) :
    s.playSessionId ≤ (runOps ops s).playSessionId := by
  induction ops generalizing s with
  | nil => simp [runOps]
  | cons op rest ih =>
      have h1 : runOps (op :: rest) s = runOps rest (applyOp op s) := by
        simp [runOps]
      rw [h1]
      exact le_trans (applyOp_session_mono op s) (ih (applyOp op s))

/-- Sine easing is monotone on phases in `[0, 1]`. -/
theorem sin_ease_mono (p q : ℝ) (hp : 0 ≤ p) (hpq : p ≤ q) (hq : q ≤ 1) :
    Real.sin (p * (Real.pi / 2)) ≤ Real.sin (q * (Real.pi / 2)) := by
  have hpi := Real.pi_pos
  apply Real.sin_le_sin_of_le_of_le_pi_div_two
  · nlinarith
  · nlinarith
  · nlinarith

/-! ## Claim C1 -/

/-- Claim C1, counterexample.  The claim states that a continuation of
`loadAndPlay` resuming after its captured token has been superseded
commits no further mutations **and no further chained backend calls**.
Trace: invocation A runs its prologue (token 1) and, still current after
the audio delay, issues the mute; while A awaits the mute, invocation B
runs its prologue (token 2), superseding A; A then resumes.  The v1 code
re-checks the session only after the load, so stale A still chains the
backend `player_load_track` call: its token differs from the ambient
session, yet its resumption appends a load command to the log. -/
theorem claim1_cex :
    (lapBegin_v1 exampleState).1 ≠
        (lapBegin_v1 (lapAfterDelay_v1 (lapBegin_v1 exampleState).1
          (lapBegin_v1 exampleState).2)).2.playSessionId ∧
      (lapAfterMute_v1 (lapBegin_v1 exampleState).1
          (lapBegin_v1 (lapAfterDelay_v1 (lapBegin_v1 exampleState).1
            (lapBegin_v1 exampleState).2)).2).log =
        (lapBegin_v1 (lapAfterDelay_v1 (lapBegin_v1 exampleState).1
          (lapBegin_v1 exampleState).2)).2.log ++ [Cmd.loadTrack "/music/a.mp3"] := by
  norm_num [lapBegin_v1, lapAfterDelay_v1, lapAfterMute_v1, exampleState, trackA, emit,
    currentTrack]

/-- Claim C1 (amended): a `loadAndPlay` continuation resuming stale at a
**checked** suspension point — after the initial delay (v1), after the
backend load (both iterations), or in the failure handler (both
iterations) — commits no state mutation and chains no backend call; the
only unchecked resumption point (after the mute, v1) chains exactly the
backend load command and changes no state besides the command log. -/
theorem claim1_stale_continuations (tok : ℕ) (d : ℚ) (s : PState)
    (h : tok ≠ s.playSessionId) :
    lapAfterDelay_v1 tok s = s ∧
    lapAfterLoad_v1 tok d s = s ∧
    lapFail_v1 tok s = s ∧
    lapAfterLoad_v2 tok d s = s ∧
    lapFail_v2 tok s = s ∧
    stripLog (lapAfterMute_v1 tok s) = stripLog s := by
  refine ⟨?_, ?_, ?_, ?_, ?_, ?_⟩
  · simp [lapAfterDelay_v1, h]
  · simp [lapAfterLoad_v1, h]
  · simp [lapFail_v1, h]
  · simp [lapAfterLoad_v2, h]
  · simp [lapFail_v2, h]
  · unfold lapAfterMute_v1
    rcases ht : currentTrack s with _ | t <;> simp [stripLog, emit]

/-- Claim C1, witness: the amended theorem at token 5 against a state
whose current session is 0. -/
theorem claim1_witness :
    lapAfterDelay_v1 5 exampleState = exampleState ∧
    lapAfterLoad_v1 5 42 exampleState = exampleState ∧
    lapFail_v1 5 exampleState = exampleState ∧
    lapAfterLoad_v2 5 42 exampleState = exampleState ∧
    lapFail_v2 5 exampleState = exampleState ∧
    stripLog (lapAfterMute_v1 5 exampleState) = stripLog exampleState :=
  claim1_stale_continuations 5 42 exampleState (by norm_num [exampleState])

/-! ## Claim C2 -/

/-- Claim C2, counterexample.  The claim quantifies over every `seekTo`
call, but the second iteration's `seekTo` (lines 620-633) never issues a
pause re-assertion: seeking to 50 on a paused (not actively playing)
100-second track resolves with the seeking flag cleared and exactly one
backend command — the seek itself — and no `player_pause`. -/
theorem claim2_cex :
    (seekToRun_v2 50 true exampleState).log = [Cmd.seek 50] ∧
      Cmd.pause ∉ (seekToRun_v2 50 true exampleState).log ∧
      (seekToRun_v2 50 true exampleState).isSeeking = false := by
  refine ⟨?_, ?_, ?_⟩
  · norm_num [seekToRun_v2, exampleState, trackA, emit, currentTrack]
  · norm_num [seekToRun_v2, exampleState, trackA, emit, currentTrack]
    decide
  · norm_num [seekToRun_v2, exampleState, trackA, emit, currentTrack]

/-- Claim C2 (amended, restricted to the first iteration's `seekTo`):
a seek issued while not actively playing, on a positive-duration track,
that resolves successfully under a still-current session clears the
seeking and buffering flags, leaves the progress clock stopped, and
issues a backend pause command right after the seek; the second
iteration's `seekTo` clears the seeking flag but issues no pause. -/
theorem claim2_paused_seek_reasserts_pause (percent : ℚ) (s : PState) (t : Track)
    (htrk : currentTrack s = some t) (hdur : 0 < t.duration)
    (hnp : (s.isPlaying && !s.isPaused) = false) :
    (seekToRun_v1 percent true s.playSessionId s).isSeeking = false ∧
    (seekToRun_v1 percent true s.playSessionId s).isBuffering = false ∧
    (seekToRun_v1 percent true s.playSessionId s).clockRunning = false ∧
    (seekToRun_v1 percent true s.playSessionId s).log =
      s.log ++ [Cmd.seek (percent / 100 * t.duration), Cmd.pause] := by
  unfold seekToRun_v1
  simp only [htrk]
  rw [if_neg (not_le.mpr hdur)]
  simp [hnp, emit]

/-- Claim C2, witness: seeking to 50 percent while paused on the
100-second example track issues the seek followed by a pause. -/
theorem claim2_witness :
    (seekToRun_v1 50 true exampleState.playSessionId exampleState).isSeeking = false ∧
    (seekToRun_v1 50 true exampleState.playSessionId exampleState).isBuffering = false ∧
    (seekToRun_v1 50 true exampleState.playSessionId exampleState).clockRunning = false ∧
    (seekToRun_v1 50 true exampleState.playSessionId exampleState).log =
      exampleState.log ++ [Cmd.seek (50 / 100 * trackA.duration), Cmd.pause] :=
  claim2_paused_seek_reasserts_pause 50 exampleState trackA rfl
    (by norm_num [trackA]) rfl

/-! ## Claim C3 -/

/-- Claim C3, counterexample.  The claim requires every failing
`loadAndPlay` under a current session to issue a backend set-volume
command restoring the configured level, but the second iteration's
failure handler (lines 558-564) issues no volume command at all: at the
example state its appended output is exactly the error notification. -/
theorem claim3_cex :
    Cmd.setVolume (exampleState.volume / 100) ∉
        (lapFail_v2 exampleState.playSessionId exampleState).log ∧
      (lapFail_v2 exampleState.playSessionId exampleState).log =
        [Cmd.notify "PLAY FAILED" true] := by
  constructor
  · norm_num [lapFail_v2, exampleState, emit]
    decide
  · norm_num [lapFail_v2, exampleState, emit]

/-- Claim C3 (amended): on a load failure under a still-current session,
the first iteration reverts `isPlaying`, clears buffering, restores the
backend volume to the configured level and surfaces an error
notification; the second iteration reverts and notifies but issues no
volume restore (it never muted).  A failure observed under a stale
session mutates nothing in either iteration. -/
theorem claim3_load_failure_recovery (tok : ℕ) (s : PState) :
    (tok = s.playSessionId →
      (lapFail_v1 tok s).isPlaying = false ∧
      (lapFail_v1 tok s).isBuffering = false ∧
      (lapFail_v1 tok s).log =
        s.log ++ [Cmd.setVolume (s.volume / 100), Cmd.notify "PLAY FAILED" true] ∧
      (lapFail_v2 tok s).isPlaying = false ∧
      (lapFail_v2 tok s).isBuffering = false ∧
      (lapFail_v2 tok s).log = s.log ++ [Cmd.notify "PLAY FAILED" true]) ∧
    (tok ≠ s.playSessionId → lapFail_v1 tok s = s ∧ lapFail_v2 tok s = s) := by
  constructor <;> intro h <;> simp [lapFail_v1, lapFail_v2, emit, h]

/-- Claim C3, witness: the current-session branch at the example state
(token 0) and the stale branch at token 7. -/
theorem claim3_witness :
    (lapFail_v1 0 exampleState).isPlaying = false ∧
    (lapFail_v1 0 exampleState).log =
      exampleState.log ++
        [Cmd.setVolume (exampleState.volume / 100), Cmd.notify "PLAY FAILED" true] ∧
    lapFail_v1 7 exampleState = exampleState ∧
    lapFail_v2 7 exampleState = exampleState :=
  ⟨((claim3_load_failure_recovery 0 exampleState).1 rfl).1,
   ((claim3_load_failure_recovery 0 exampleState).1 rfl).2.2.1,
   ((claim3_load_failure_recovery 7 exampleState).2 (by norm_num [exampleState])).1,
   ((claim3_load_failure_recovery 7 exampleState).2 (by norm_num [exampleState])).2⟩

/-! ## Claim C4 -/

/-- Claim C4, counterexample.  The claim asserts that `prevTrack` in
shuffle mode also assigns a pseudo-randomly drawn index; but `prevTrack`
(both iterations) has no shuffle branch: on the three-track shuffle-mode
state with current index 2 it always assigns index 1, whereas the claimed
selection procedure with draw 0 yields index 0. -/
theorem claim4_cex :
    (prevTrackIndexStep exampleShuffleState).currentIndex = 1 ∧
      shuffleSelect 0 3 2 = 0 ∧ (1 : ℕ) ≠ 0 := by
  refine ⟨?_, ?_, by norm_num⟩
  · norm_num [prevTrackIndexStep, prevIndex, exampleShuffleState, exampleState]
  · norm_num [shuffleSelect]

/-- Claim C4 (amended): in the second iteration, `nextTrack` in shuffle
mode on a queue of size `n > 1` assigns a pseudo-randomly drawn index
that is always distinct from (and, like the previous index, within) the
queue bounds, falling back to the deterministic offset
`(draw + 1) % n` on collision; the sequential/loop advance of
`nextTrack` (v1 in every mode, v2 outside shuffle) and of `prevTrack`
(both iterations, every mode) steps by plus/minus one with wraparound at
the queue bounds. -/
theorem claim4_shuffle_selection (r : ℚ) (total cur : ℕ)
    (hr0 : 0 ≤ r) (hr1 : r < 1) (htot : 1 < total) (hcur : cur < total) :
    shuffleSelect r total cur ≠ cur ∧
    shuffleSelect r total cur < total ∧
    (∀ s : PState, s.playMode = PlayMode.shuffle → s.queue.length = total →
      s.currentIndex = cur →
      (nextTrackIndexStep_v2 r s).currentIndex = shuffleSelect r total cur) ∧
    (cur + 1 < total → nextIndex_v1 total cur = cur + 1) ∧
    (cur + 1 = total → nextIndex_v1 total cur = 0) ∧
    (0 < cur → prevIndex total cur = cur - 1) ∧
    (cur = 0 → prevIndex total cur = total - 1) := by
  have htq : (0 : ℚ) < (total : ℚ) := by
    have h0 : 0 < total := by omega
    exact_mod_cast h0
  have hmul : r * (total : ℚ) < (total : ℚ) := by
    calc r * (total : ℚ) < 1 * (total : ℚ) := mul_lt_mul_of_pos_right hr1 htq
      _ = (total : ℚ) := one_mul _
  have hfl : ⌊r * (total : ℚ)⌋₊ < total := by
    rw [Nat.floor_lt (mul_nonneg hr0 htq.le)]
    exact_mod_cast hmul
  have hsel : shuffleSelect r total cur ≠ cur ∧ shuffleSelect r total cur < total := by
    simp only [shuffleSelect]
    by_cases htc : ⌊r * (total : ℚ)⌋₊ = cur
    · rw [if_pos htc, htc]
      constructor
      · have h1 : cur + 1 ≤ total := hcur
        rcases lt_or_eq_of_le h1 with hlt | heq
        · rw [Nat.mod_eq_of_lt hlt]
          omega
        · rw [heq, Nat.mod_self]
          omega
      · exact Nat.mod_lt _ (by omega)
    · rw [if_neg htc]
      exact ⟨htc, hfl⟩
  refine ⟨hsel.1, hsel.2, ?_, ?_, ?_, ?_, ?_⟩
  · intro s hm hlen hidx
    unfold nextTrackIndexStep_v2 nextIndex_v2
    rw [hlen, hidx, hm]
    simp only [if_neg (by omega : ¬ total = 0)]
    simp [htot]
  · intro h
    unfold nextIndex_v1
    rw [Nat.mod_eq_of_lt h]
  · intro h
    unfold nextIndex_v1
    rw [h, Nat.mod_self]
  · intro h
    unfold prevIndex
    simp [h]
  · intro h
    unfold prevIndex
    simp [h]

/-- Claim C4, witness: draw one-half on the three-track shuffle state
(current index 2) selects index 1, which the v2 `nextTrack` assigns. -/
theorem claim4_witness :
    shuffleSelect (1/2) 3 2 ≠ 2 ∧
    shuffleSelect (1/2) 3 2 < 3 ∧
    (nextTrackIndexStep_v2 (1/2) exampleShuffleState).currentIndex =
      shuffleSelect (1/2) 3 2 ∧
    prevIndex 3 2 = 1 :=
  ⟨(claim4_shuffle_selection (1/2) 3 2 (by norm_num) (by norm_num)
      (by norm_num) (by norm_num)).1,
   (claim4_shuffle_selection (1/2) 3 2 (by norm_num) (by norm_num)
      (by norm_num) (by norm_num)).2.1,
   (claim4_shuffle_selection (1/2) 3 2 (by norm_num) (by norm_num)
      (by norm_num) (by norm_num)).2.2.1 exampleShuffleState rfl rfl rfl,
   (claim4_shuffle_selection (1/2) 3 2 (by norm_num) (by norm_num)
      (by norm_num) (by norm_num)).2.2.2.2.2.1 (by norm_num)⟩

/-! ## Claim C5 -/

/-- Claim C5, counterexample.  The claim states that every user-initiated
seek intent increments the session token by exactly one before the
asynchronous work begins, but `seekTo` (both iterations) never touches
`playSessionId`: a full successful seek at the example state leaves the
token unchanged rather than incremented. -/
theorem claim5_cex :
    (seekToRun_v1 50 true 0 exampleState).playSessionId ≠
        exampleState.playSessionId + 1 ∧
      (seekToRun_v2 50 true exampleState).playSessionId ≠
        exampleState.playSessionId + 1 := by
  constructor
  · norm_num [seekToRun_v1, exampleState, trackA, emit, currentTrack]
  · norm_num [seekToRun_v2, exampleState, trackA, emit, currentTrack]

/-- Claim C5 (amended): every load intent (`loadAndPlay` prologue, both
iterations) increments the session token by exactly one before its
asynchronous work and captures the new value; seek intents leave the
token unchanged (the first iteration merely captures it, the second
ignores it); the token is never decremented, hence nondecreasing along
any sequence of modelled operations. -/
theorem claim5_session_monotone :
    (∀ (s : PState) (t : Track), currentTrack s = some t →
      (lapBegin_v1 s).2.playSessionId = s.playSessionId + 1 ∧
      (lapBegin_v1 s).1 = s.playSessionId + 1 ∧
      (lapBegin_v2 s).2.playSessionId = s.playSessionId + 1 ∧
      (lapBegin_v2 s).1 = s.playSessionId + 1) ∧
    (∀ (percent : ℚ) (success : Bool) (sessAtRes : ℕ) (s : PState),
      (seekToRun_v1 percent success sessAtRes s).playSessionId = s.playSessionId) ∧
    (∀ (percent : ℚ) (success : Bool) (s : PState),
      (seekToRun_v2 percent success s).playSessionId = s.playSessionId) ∧
    (∀ (ops : List Op) (s : PState),
      s.playSessionId ≤ (runOps ops s).playSessionId) := by
  refine ⟨?_, ?_, ?_, runOps_session_mono⟩
  · intro s t h
    simp [lapBegin_v1, lapBegin_v2, h]
  · intro percent success sessAtRes s
    exact (seekToRun_v1_frame percent success sessAtRes s).2.2.2.2.1
  · intro percent success s
    exact (seekToRun_v2_frame percent success s).2.2.2.2.1

/-- Claim C5, witness: at the example state the load prologue moves the
token from 0 to 1, a seek run leaves it at 0, and a load-then-seek
sequence never decreases it. -/
theorem claim5_witness :
    (lapBegin_v1 exampleState).2.playSessionId = exampleState.playSessionId + 1 ∧
    (seekToRun_v1 50 true 0 exampleState).playSessionId =
      exampleState.playSessionId ∧
    exampleState.playSessionId ≤
      (runOps [Op.lapBeginV1, Op.seekV1 50 true 1] exampleState).playSessionId :=
  ⟨(claim5_session_monotone.1 exampleState trackA rfl).1,
   claim5_session_monotone.2.1 50 true 0 exampleState,
   claim5_session_monotone.2.2.2 [Op.lapBeginV1, Op.seekV1 50 true 1] exampleState⟩

/-! ## Claim C6 -/

/-- Claim C6, counterexample.  The claim states that starting a new fade
first aborts any in-flight fade, cancelling its pending scheduled ticks,
so commands of two envelopes never interleave.  But `applyFade` has no
abort: starting envelope 2 while envelope 1 has a pending tick leaves
both ticks scheduled, and running three ticks interleaves the issued
backend volume commands of the two envelopes
(envelope 1 at 200ms, envelope 2 at 300ms, envelope 1 again at 400ms). -/
theorem claim6_cex :
    (applyFadeStart ⟨2, 80, 0, 1000, 100⟩
        (applyFadeStart ⟨1, 0, 80, 1000, 0⟩ ⟨false, [], []⟩)).pending =
      [⟨1, 0, 80, 1000, 0⟩, ⟨2, 80, 0, 1000, 100⟩] ∧
    (runFadeTick 400 (runFadeTick 300 (runFadeTick 200
        (applyFadeStart ⟨2, 80, 0, 1000, 100⟩
          (applyFadeStart ⟨1, 0, 80, 1000, 0⟩ ⟨false, [], []⟩))))).volLog =
      [(1, 200), (2, 300), (1, 400)] := by
  constructor
  · norm_num [applyFadeStart]
  · norm_num [applyFadeStart, runFadeTick, fadeTickP]

/-- Claim C6 (amended): `applyFade` provides no abort; starting a new
fade merely sets the shared `isFading` flag and appends its own first
tick, leaving every pending tick of an in-flight fade scheduled, and the
next tick to run still issues the older envelope's backend volume
command even after a newer fade has started. -/
theorem claim6_no_abort (e₁ e₂ : FadeEnv) (sys : FadeSys) (now : ℚ) (fading : Bool)
    (log : List (ℕ × ℚ)) :
    (applyFadeStart e₂ (applyFadeStart e₁ sys)).pending = sys.pending ++ [e₁, e₂] ∧
    (runFadeTick now (applyFadeStart e₂ (applyFadeStart e₁ ⟨fading, [], log⟩))).volLog =
      log ++ [(e₁.envId, now)] ∧
    (applyFadeStart e₂ sys).isFading = true := by
  refine ⟨by simp [applyFadeStart], ?_, by simp [applyFadeStart]⟩
  simp only [applyFadeStart, runFadeTick, List.nil_append, List.singleton_append]
  split_ifs <;> simp

/-! ## Claim C7 -/

/-- Claim C7: the fade envelope from level `a` to level `b` over a
positive duration `t` samples to exactly `a` at elapsed time 0, to
exactly `b` at any elapsed time of at least `t` (the sine ease reaches
exactly 1 at phase 1), and the issued levels are monotone in the
direction of `b - a` as elapsed time grows. -/
theorem claim7_fade_curve (a b t : ℝ) (ht : 0 < t) :
    fadeCurrent a b (fadeP 0 t) = a
    ∧ (∀ e : ℝ, t * 1000 ≤ e → fadeCurrent a b (fadeP e t) = b)
    ∧ (∀ e₁ e₂ : ℝ, 0 ≤ e₁ → e₁ ≤ e₂ →
        ((a ≤ b → fadeCurrent a b (fadeP e₁ t) ≤ fadeCurrent a b (fadeP e₂ t))
         ∧ (b ≤ a → fadeCurrent a b (fadeP e₂ t) ≤ fadeCurrent a b (fadeP e₁ t)))) := by
  have ht1000 : (0 : ℝ) < t * 1000 := by positivity
  refine ⟨?_, ?_, ?_⟩
  · simp [fadeCurrent, fadeP, zero_div]
  · intro e he
    have h1 : (1 : ℝ) ≤ e / (t * 1000) := (one_le_div ht1000).mpr he
    have hp : fadeP e t = 1 := by simp [fadeP, min_eq_right h1]
    rw [hp]
    simp [fadeCurrent, Real.sin_pi_div_two]
  · intro e₁ e₂ he₁ h12
    have hp1nn : 0 ≤ fadeP e₁ t :=
      le_min (div_nonneg he₁ ht1000.le) (by norm_num)
    have hple : fadeP e₁ t ≤ fadeP e₂ t := by
      unfold fadeP
      gcongr
    have hp2le : fadeP e₂ t ≤ 1 := min_le_right _ _
    have hsin := sin_ease_mono (fadeP e₁ t) (fadeP e₂ t) hp1nn hple hp2le
    constructor
    · intro hab
      unfold fadeCurrent
      nlinarith [hsin]
    · intro hba
      unfold fadeCurrent
      nlinarith [hsin]

/-- Claim C7, witness: fading from level 0 to level 1 over one second
starts at 0, ends at 1, and is monotone between 200ms and 500ms. -/
theorem claim7_witness :
    fadeCurrent 0 1 (fadeP 0 1) = 0 ∧
    fadeCurrent 0 1 (fadeP 2000 1) = 1 ∧
    fadeCurrent 0 1 (fadeP 200 1) ≤ fadeCurrent 0 1 (fadeP 500 1) :=
  ⟨(claim7_fade_curve 0 1 1 one_pos).1,
   (claim7_fade_curve 0 1 1 one_pos).2.1 2000 (by norm_num),
   ((claim7_fade_curve 0 1 1 one_pos).2.2 200 500 (by norm_num) (by norm_num)).1
     (by norm_num)⟩

/-! ## Claim C8 -/

/-- Claim C8, counterexample.  The claim states that a fade of duration 0
sends no NaN level and that the issued command carries exactly the end
level.  Under JavaScript number semantics the tick computes
`p = min(0 / 0, 1) = NaN` when it observes zero elapsed time, so the
level sent to the backend is NaN, not the end level. -/
theorem claim8_cex :
    tickLevelJs 0 (4/5) 0 0 = JsNum.nan ∧ JsNum.nan ≠ JsNum.num (4/5) :=
  ⟨by simp [tickLevelJs, jsDiv, jsMin1, jsEase, jsLevel], fun h => by cases h⟩

/-- Claim C8 (amended): a fade of duration 0 whose tick observes strictly
positive elapsed time behaves as an immediate jump — the JavaScript
division by zero yields infinity, clamped to phase 1, so the issued
level is exactly the end level and the tick does not reschedule (the
fade resolves immediately); only a tick observing zero elapsed time
computes `0 / 0 = NaN` and sends a NaN level. -/
theorem claim8_zero_duration_jump (a b e : ℝ) (he : 0 < e) :
    tickLevelJs a b e 0 = JsNum.num b ∧ ¬ jsLtOne (jsMin1 (jsDiv e 0)) := by
  have h1 : jsDiv e 0 = JsNum.posInf := by
    simp [jsDiv, he.ne', he]
  constructor
  · simp [tickLevelJs, h1, jsMin1, jsEase, jsLevel, Real.sin_pi_div_two]
  · simp [h1, jsMin1, jsLtOne]

/-- Claim C8, witness: a zero-duration fade tick at 5ms elapsed issues
exactly the end level 1 and resolves. -/
theorem claim8_witness :
    tickLevelJs 0 1 5 0 = JsNum.num 1 ∧ ¬ jsLtOne (jsMin1 (jsDiv 5 0)) :=
  ⟨(claim8_zero_duration_jump 0 1 5 (by norm_num)).1,
   (claim8_zero_duration_jump 0 1 5 (by norm_num)).2⟩

/-! ## Claim C9 -/

/-- Claim C9: a progress-clock tick that observes displayed time at or
past the current track's duration, with no interactive lock held while
playing: in loop mode it resets displayed time to 0, issues a backend
seek to 0 and keeps the current index (and keeps ticking, not calling
`nextTrack`); in every other mode it invokes `nextTrack` and exits the
ticking loop. -/
theorem claim9_end_of_track (ts lf : ℚ) (s : PState) (t : Track)
    (htrk : currentTrack s = some t)
    (hp : s.isPlaying = true) (hpa : s.isPaused = false)
    (hd : s.isDragging = false) (hb : s.isBuffering = false) (hsk : s.isSeeking = false)
    (hend : t.duration ≤ s.currentTime + (ts - lf) / 1000) :
    (s.playMode = PlayMode.loop →
      (progressTick ts lf s).state.currentTime = 0 ∧
      (progressTick ts lf s).state.currentIndex = s.currentIndex ∧
      (progressTick ts lf s).state.log = s.log ++ [Cmd.seek 0] ∧
      (progressTick ts lf s).calledNextTrack = false ∧
      (progressTick ts lf s).rescheduled = true) ∧
    (s.playMode ≠ PlayMode.loop →
      (progressTick ts lf s).calledNextTrack = true ∧
      (progressTick ts lf s).rescheduled = false) := by
  constructor <;> intro hm <;>
    simp [progressTick, htrk, hp, hpa, hd, hb, hsk, hend, hm, emit] <;>
    split_ifs <;> simp [emit]

/-- Claim C9, witness: at 99s into the 100s example track with a 2s
frame delta, the loop-mode state resets to 0 and seeks, and the
sequential-mode state calls `nextTrack` and exits the loop. -/
theorem claim9_witness :
    ((progressTick 2000 0 exampleLoopState).state.currentTime = 0 ∧
      (progressTick 2000 0 exampleLoopState).state.currentIndex =
        exampleLoopState.currentIndex ∧
      (progressTick 2000 0 exampleLoopState).state.log =
        exampleLoopState.log ++ [Cmd.seek 0] ∧
      (progressTick 2000 0 exampleLoopState).calledNextTrack = false ∧
      (progressTick 2000 0 exampleLoopState).rescheduled = true) ∧
    ((progressTick 2000 0 exampleSeqPlayingState).calledNextTrack = true ∧
      (progressTick 2000 0 exampleSeqPlayingState).rescheduled = false) :=
  ⟨(claim9_end_of_track 2000 0 exampleLoopState trackA rfl rfl rfl rfl rfl rfl
      (by norm_num [trackA, exampleLoopState, exampleState])).1 rfl,
   (claim9_end_of_track 2000 0 exampleSeqPlayingState trackA rfl rfl rfl rfl rfl rfl
      (by norm_num [trackA, exampleSeqPlayingState, exampleState])).2
      (by intro h; cases h)⟩

/-! ## Claim C10 -/

/-- Claim C10: a `seekTo` run (either iteration, success or failure,
current or stale session, early return included) never changes the queue
contents, the current index (hence the current track's identity), the
play mode, the configured volume — nor the session token or the
play/pause intent; only displayed time, progress, the seeking/buffering
flags and the progress-clock schedule are mutated. -/
theorem claim10_seek_frame (percent : ℚ) (success : Bool) (sessAtRes : ℕ) (s : PState) :
    ((seekToRun_v1 percent success sessAtRes s).queue = s.queue ∧
     (seekToRun_v1 percent success sessAtRes s).currentIndex = s.currentIndex ∧
     (seekToRun_v1 percent success sessAtRes s).playMode = s.playMode ∧
     (seekToRun_v1 percent success sessAtRes s).volume = s.volume ∧
     (seekToRun_v1 percent success sessAtRes s).playSessionId = s.playSessionId ∧
     (seekToRun_v1 percent success sessAtRes s).isPlaying = s.isPlaying ∧
     (seekToRun_v1 percent success sessAtRes s).isPaused = s.isPaused) ∧
    ((seekToRun_v2 percent success s).queue = s.queue ∧
     (seekToRun_v2 percent success s).currentIndex = s.currentIndex ∧
     (seekToRun_v2 percent success s).playMode = s.playMode ∧
     (seekToRun_v2 percent success s).volume = s.volume ∧
     (seekToRun_v2 percent success s).playSessionId = s.playSessionId ∧
     (seekToRun_v2 percent success s).isPlaying = s.isPlaying ∧
     (seekToRun_v2 percent success s).isPaused = s.isPaused) := by
  have h1 := seekToRun_v1_frame percent success sessAtRes s
  have h2 := seekToRun_v2_frame percent success s
  exact ⟨⟨h1.1, h1.2.1, h1.2.2.1, h1.2.2.2.1, h1.2.2.2.2.1, h1.2.2.2.2.2.1,
          h1.2.2.2.2.2.2.1⟩,
         ⟨h2.1, h2.2.1, h2.2.2.1, h2.2.2.2.1, h2.2.2.2.2.1, h2.2.2.2.2.2.1,
          h2.2.2.2.2.2.2.1⟩⟩

end AstralGalaxy
